import Mathlib

/-!
Verification of the chargerecorder service (FastAPI + SQLAlchemy, `src/routes.py`,
`src/models.py`). Shallow embedding: the SQLite table of `ChargingSession` rows is a
`List ChargingSession` together with the next auto-assigned primary key; timestamps
are abstract `Nat` instants and `isoformat` rendering is `toString`; each request
handler is a pure function from configuration, cookie and store to a response and
the resulting store. SQL `ORDER BY` is modelled by `List.insertionSort` (a stable
deterministic sort), and `HTTPException(code, detail)` by the `Outcome.error`
constructor.
-/

namespace ChargeRecorder

/-- A row of the `charging_sessions` table (`src/models.py`): integer primary key,
required `start_percentage` and `start_time`, nullable `end_percentage` and
`end_time`. -/
structure ChargingSession where
  id : Nat
  start_percentage : Int
  start_time : Nat
  end_percentage : Option Int
  end_time : Option Nat
deriving DecidableEq, Repr

/-- The persistent store: the table contents plus the next primary key to assign. -/
structure Store where
  sessions : List ChargingSession
  nextId : Nat
deriving DecidableEq, Repr

/-- The empty database created by `init_db`. -/
def initStore : Store := ⟨[], 0⟩

/-- A handler outcome: either an `HTTPException(code, detail)` or a payload. -/
inductive Outcome (α : Type) where
  | error (code : Nat) (detail : String)
  | ok (a : α)
deriving DecidableEq, Repr

/-- `verify_session` from `src/routes.py`: with no configured `UNLOCK_PHRASE` every
request passes; a missing or empty cookie fails; otherwise the cookie must equal
the phrase. -/
def verify_session (cfg : String) (cookie : Option String) : Bool :=
  if cfg = "" then true
  else
    match cookie with
    | none => false
    | some c => if c = "" then false else c = cfg

/-- The response body of `POST /api/unlock`. -/
structure UnlockResponse where
  success : Bool
  message : String
deriving DecidableEq, Repr

/-- The cookie set by a successful unlock. -/
structure CookieSet where
  key : String
  value : String
  httponly : Bool
  max_age : Nat
  samesite : String
deriving DecidableEq, Repr

/-- `unlock` from `src/routes.py`: with no phrase configured it succeeds without a
cookie; on a matching phrase it sets the session cookie to the phrase itself for
86400 seconds; on a mismatch it returns a failure body and sets nothing. -/
def unlock (cfg phrase : String) : UnlockResponse × Option CookieSet :=
  if cfg = "" then (⟨true, "No passphrase configured"⟩, none)
  else if phrase = cfg then
    (⟨true, "Unlocked"⟩, some ⟨"chargerecorder_session", cfg, true, 86400, "lax"⟩)
  else (⟨false, "Incorrect passphrase"⟩, none)

/-- A session is open when its `end_percentage` column is NULL (the filter
`ChargingSession.end_percentage.is_(None)` used by the handlers). -/
def isOpen (s : ChargingSession) : Bool := s.end_percentage.isNone

/-- Descending `ORDER BY start_time`: `a` comes no later than `b` when its start
time is at least `b`'s. -/
def startDescLe (a b : ChargingSession) : Prop := b.start_time ≤ a.start_time

/-- Ascending `ORDER BY start_time`. -/
def startAscLe (a b : ChargingSession) : Prop := a.start_time ≤ b.start_time

instance : DecidableRel startDescLe := fun a b => Nat.decLe b.start_time a.start_time

instance : DecidableRel startAscLe := fun a b => Nat.decLe a.start_time b.start_time

instance : IsTotal ChargingSession startDescLe := ⟨fun a b => Nat.le_total b.start_time a.start_time⟩

instance : IsTrans ChargingSession startDescLe := ⟨fun _ _ _ h1 h2 => Nat.le_trans h2 h1⟩

instance : IsTotal ChargingSession startAscLe := ⟨fun a b => Nat.le_total a.start_time b.start_time⟩

instance : IsTrans ChargingSession startAscLe := ⟨fun _ _ _ h1 h2 => Nat.le_trans h1 h2⟩

/-- `order_by(ChargingSession.start_time.desc())`. -/
def sortDescByStart (l : List ChargingSession) : List ChargingSession :=
  List.insertionSort startDescLe l

/-- `order_by(ChargingSession.start_time.asc())`. -/
def sortAscByStart (l : List ChargingSession) : List ChargingSession :=
  List.insertionSort startAscLe l

/-- The query shared by `get_status` and the `end` branch of `create_session`:
filter on NULL `end_percentage`, order by `start_time` descending, take the first
row. -/
def findOpen (l : List ChargingSession) : Option ChargingSession :=
  (sortDescByStart (l.filter isOpen)).head?

/-- Close a row in place: set the end fields of the row with the given primary
key (`open_session.end_percentage = ...; open_session.end_time = ...`). -/
def closeAt (l : List ChargingSession) (sid : Nat) (p : Int) (t : Nat) :
    List ChargingSession :=
  l.map fun s =>
    if s.id = sid then { s with end_percentage := some p, end_time := some t } else s

/-- The payload of a successful `POST /api/sessions`. -/
inductive RecordPayload where
  | started (message : String) (sess : ChargingSession)
  | ended (message : String) (sess : ChargingSession)
deriving DecidableEq, Repr

/-- The body of `create_session` after the auth check (`src/routes.py` lines
115-170): validate the percentage, then dispatch on the request type; `start`
inserts a fresh open row, `end` closes the most recent open row or fails with
400 when none exists, anything else is a 400 type error. -/
def record (σ : Store) (kind : String) (percentage : Int) (now : Nat) :
    Outcome RecordPayload × Store :=
  if percentage < 0 ∨ percentage > 100 then
    (.error 400 "Percentage must be between 0 and 100", σ)
  else if kind = "start" then
    let sess : ChargingSession := ⟨σ.nextId, percentage, now, none, none⟩
    (.ok (.started ("Recorded " ++ toString percentage ++ "% as start charge") sess),
      ⟨σ.sessions ++ [sess], σ.nextId + 1⟩)
  else if kind = "end" then
    match findOpen σ.sessions with
    | none => (.error 400 "No active charging session found", σ)
    | some s =>
      let closed : ChargingSession :=
        { s with end_percentage := some percentage, end_time := some now }
      (.ok (.ended ("Recorded " ++ toString percentage ++ "% as end charge") closed),
        ⟨closeAt σ.sessions s.id percentage now, σ.nextId⟩)
  else (.error 400 "Type must be 'start' or 'end'", σ)

/-- The `GET /api/status` payload. -/
inductive StatusPayload where
  | charging (start_percentage : Int) (start_time : Nat)
  | idle
deriving DecidableEq, Repr

/-- `GET /api/status`: auth, then report the most recent open session or idle. -/
def get_status (cfg : String) (cookie : Option String) (σ : Store) :
    Outcome StatusPayload × Store :=
  if verify_session cfg cookie = false then (.error 401 "Unauthorized", σ)
  else
    match findOpen σ.sessions with
    | some s => (.ok (.charging s.start_percentage s.start_time), σ)
    | none => (.ok .idle, σ)

/-- One element of the `GET /api/sessions` response array: the end fields are the
raw nullable columns (`null` in JSON when absent). -/
structure SessionJson where
  id : Nat
  start_percentage : Int
  start_time : Nat
  end_percentage : Option Int
  end_time : Option Nat
deriving DecidableEq, Repr

/-- The JSON rendering of one row in `get_sessions`. -/
def renderSession (s : ChargingSession) : SessionJson :=
  ⟨s.id, s.start_percentage, s.start_time, s.end_percentage, s.end_time⟩

/-- `GET /api/sessions`: auth, then all rows ordered by `start_time` descending. -/
def get_sessions (cfg : String) (cookie : Option String) (σ : Store) :
    Outcome (List SessionJson) × Store :=
  if verify_session cfg cookie = false then (.error 401 "Unauthorized", σ)
  else (.ok ((sortDescByStart σ.sessions).map renderSession), σ)

/-- `POST /api/sessions`: auth, then the `record` body. -/
def create_session (cfg : String) (cookie : Option String) (σ : Store)
    (kind : String) (percentage : Int) (now : Nat) :
    Outcome RecordPayload × Store :=
  if verify_session cfg cookie = false then (.error 401 "Unauthorized", σ)
  else record σ kind percentage now

/-- One CSV data row (`export_csv`): the end-percentage cell reproduces the Python
truthiness test `s.end_percentage if s.end_percentage else ""`, under which the
value `0` renders as an empty cell exactly like NULL does. -/
def csvRow (s : ChargingSession) : List String :=
  [toString s.start_percentage, toString s.start_time,
    (match s.end_percentage with
     | none => ""
     | some v => if v = 0 then "" else toString v),
    (match s.end_time with
     | none => ""
     | some t => toString t)]

/-- The rows written by `export_csv`: header, then one row per session ascending
by `start_time`. -/
def exportRows (l : List ChargingSession) : List (List String) :=
  ["start_percentage", "start_datetime", "end_percentage", "end_datetime"] ::
    (sortAscByStart l).map csvRow

/-- `GET /api/sessions/csv`: auth, then the CSV rows. -/
def export_csv (cfg : String) (cookie : Option String) (σ : Store) :
    Outcome (List (List String)) × Store :=
  if verify_session cfg cookie = false then (.error 401 "Unauthorized", σ)
  else (.ok (exportRows σ.sessions), σ)

/-- The body of `DELETE /api/sessions/{id}` after auth: look the row up by primary
key, 404 when absent, otherwise delete it. -/
def deleteCore (σ : Store) (sid : Nat) : Outcome String × Store :=
  match σ.sessions.find? (fun s => s.id == sid) with
  | none => (.error 404 "Session not found", σ)
  | some _ =>
    (.ok "Session deleted", ⟨σ.sessions.eraseP (fun s => s.id == sid), σ.nextId⟩)

/-- `DELETE /api/sessions/{id}`: auth, then `deleteCore`. -/
def delete_session (cfg : String) (cookie : Option String) (σ : Store) (sid : Nat) :
    Outcome String × Store :=
  if verify_session cfg cookie = false then (.error 401 "Unauthorized", σ)
  else deleteCore σ sid

/-- `DELETE /api/sessions`: auth, then delete every row. -/
def delete_all_sessions (cfg : String) (cookie : Option String) (σ : Store) :
    Outcome String × Store :=
  if verify_session cfg cookie = false then (.error 401 "Unauthorized", σ)
  else (.ok "All sessions deleted", ⟨[], σ.nextId⟩)

/-- `GET /health`: no auth dependency, constant 200 body. -/
def health_check : Nat × String := (200, "ok")

/-- One store-touching API operation (after authorization). -/
inductive ApiOp where
  | record (kind : String) (percentage : Int) (now : Nat)
  | deleteOne (sid : Nat)
  | deleteAll
deriving DecidableEq, Repr

/-- The store after one operation (failed operations leave it unchanged, as every
handler raises before any mutation). -/
def applyOp (σ : Store) : ApiOp → Store
  | .record kind p now => (record σ kind p now).2
  | .deleteOne sid => (deleteCore σ sid).2
  | .deleteAll => ⟨[], σ.nextId⟩

/-- The store reached from the empty database by a sequence of operations. -/
def runOps (ops : List ApiOp) : Store := ops.foldl applyOp initStore

/-- The number of open sessions in the table. -/
def countOpen (l : List ChargingSession) : Nat := l.countP isOpen

/-- The guard of one operation: a `start` is only issued while no session is open. -/
def guardOk (σ : Store) : ApiOp → Bool
  | .record kind _ _ => if kind = "start" then countOpen σ.sessions == 0 else true
  | _ => true

/-- A whole operation sequence is guarded when every `start` in it is issued on a
store with no open session. -/
def guardedB : Store → List ApiOp → Bool
  | _, [] => true
  | σ, op :: rest => guardOk σ op && guardedB (applyOp σ op) rest

theorem findOpen_eq_none_iff (l : List ChargingSession) :
    findOpen l = none ↔ ∀ s ∈ l, isOpen s = false := by
  unfold findOpen sortDescByStart
  rw [List.head?_eq_none_iff]
  constructor
  · intro h s hs
    by_contra hopen
    have hmem : s ∈ List.insertionSort startDescLe (l.filter isOpen) := by
      rw [List.mem_insertionSort]
      exact List.mem_filter.2 ⟨hs, by simpa using hopen⟩
    rw [h] at hmem
    exact absurd hmem (List.not_mem_nil s)
  · intro h
    have hnil : l.filter isOpen = [] :=
      List.filter_eq_nil_iff.2 fun s hs => by simp [h s hs]
    rw [hnil]
    rfl

theorem findOpen_eq_some (l : List ChargingSession) (s : ChargingSession)
    (h : findOpen l = some s) :
    s ∈ l ∧ isOpen s = true ∧
      ∀ t ∈ l, isOpen t = true → t.start_time ≤ s.start_time := by
  unfold findOpen sortDescByStart at h
  have hex : ∃ rest, List.insertionSort startDescLe (l.filter isOpen) = s :: rest := by
    cases hc : List.insertionSort startDescLe (l.filter isOpen) with
    | nil => rw [hc] at h; exact absurd h (by simp)
    | cons a as =>
      rw [hc] at h
      have ha : a = s := by simpa using h
      exact ⟨as, by rw [ha]⟩
  obtain ⟨rest, hrest⟩ := hex
  have hsmem : s ∈ l.filter isOpen := by
    rw [← List.mem_insertionSort (r := startDescLe), hrest]
    exact List.mem_cons_self s rest
  have hsorted := List.sorted_insertionSort startDescLe (l.filter isOpen)
  rw [hrest, List.sorted_cons] at hsorted
  refine ⟨(List.mem_filter.1 hsmem).1, (List.mem_filter.1 hsmem).2, ?_⟩
  intro t ht hto
  have htmem : t ∈ s :: rest := by
    rw [← hrest, List.mem_insertionSort]
    exact List.mem_filter.2 ⟨ht, hto⟩
  rcases List.mem_cons.1 htmem with hts | htr
  · exact hts ▸ Nat.le_refl _
  · exact hsorted.1 t htr

theorem countOpen_closeAt_le (l : List ChargingSession) (sid : Nat) (p : Int) (t : Nat) :
    countOpen (closeAt l sid p t) ≤ countOpen l := by
  unfold countOpen closeAt
  rw [List.countP_map]
  refine List.countP_mono_left fun s _ hs => ?_
  by_cases hid : s.id = sid
  · simp [Function.comp, hid, isOpen] at hs
  · simpa [Function.comp, hid] using hs

theorem countOpen_applyOp_le_one (σ : Store) (op : ApiOp)
    (h1 : countOpen σ.sessions ≤ 1) (h2 : guardOk σ op = true) :
    countOpen (applyOp σ op).sessions ≤ 1 := by
  cases op with
  | deleteAll => simp [applyOp, countOpen]
  | deleteOne sid =>
    have hs : (deleteCore σ sid).2.sessions.Sublist σ.sessions := by
      unfold deleteCore
      cases hf : σ.sessions.find? (fun s => s.id == sid) with
      | none => exact List.Sublist.refl _
      | some s => exact List.eraseP_sublist σ.sessions
    exact Nat.le_trans (hs.countP_le _) h1
  | record kind p now =>
    by_cases hp : p < 0 ∨ p > 100
    · simpa [applyOp, record, hp] using h1
    · by_cases hk : kind = "start"
      · have h0 : countOpen σ.sessions = 0 := by
          simp [guardOk, hk] at h2
          exact h2
        have hc : countOpen (σ.sessions ++ [(⟨σ.nextId, p, now, none, none⟩ : ChargingSession)]) ≤ 1 := by
          rw [countOpen, List.countP_append]
          have hz : σ.sessions.countP isOpen = 0 := h0
          simp [hz, isOpen]
        subst hk
        have hsnd : (record σ "start" p now).2.sessions =
            σ.sessions ++ [(⟨σ.nextId, p, now, none, none⟩ : ChargingSession)] := by
          simp [record, hp]
        show countOpen (record σ "start" p now).2.sessions ≤ 1
        rw [hsnd]
        exact hc
      · by_cases he : kind = "end"
        · subst he
          show countOpen (record σ "end" p now).2.sessions ≤ 1
          cases hf : findOpen σ.sessions with
          | none =>
            have hsnd : (record σ "end" p now).2 = σ := by simp [record, hp, hf]
            rw [hsnd]
            exact h1
          | some s =>
            have hsnd : (record σ "end" p now).2.sessions = closeAt σ.sessions s.id p now := by
              simp [record, hp, hf]
            rw [hsnd]
            exact Nat.le_trans (countOpen_closeAt_le σ.sessions s.id p now) h1
        · simpa [applyOp, record, hp, hk, he] using h1

theorem countOpen_foldl_le_one (ops : List ApiOp) (σ : Store)
    (h1 : countOpen σ.sessions ≤ 1) (h2 : guardedB σ ops = true) :
    countOpen (ops.foldl applyOp σ).sessions ≤ 1 := by
  induction ops generalizing σ with
  | nil => exact h1
  | cons op rest ih =>
    rw [List.foldl_cons]
    have hsplit : guardOk σ op = true ∧ guardedB (applyOp σ op) rest = true := by
      simpa [guardedB, Bool.and_eq_true] using h2
    exact ih (applyOp σ op) (countOpen_applyOp_le_one σ op h1 hsplit.1) hsplit.2

/-- A row's end columns are either both NULL or both set. -/
def endOk (s : ChargingSession) : Prop := s.end_percentage = none ↔ s.end_time = none

theorem endOk_applyOp (σ : Store) (op : ApiOp)
    (h : ∀ s ∈ σ.sessions, endOk s) :
    ∀ s ∈ (applyOp σ op).sessions, endOk s := by
  cases op with
  | deleteAll => simp [applyOp]
  | deleteOne sid =>
    have hsub : (deleteCore σ sid).2.sessions.Sublist σ.sessions := by
      unfold deleteCore
      cases hf : σ.sessions.find? (fun t => t.id == sid) with
      | none => exact List.Sublist.refl _
      | some t => exact List.eraseP_sublist σ.sessions
    intro s hs
    exact h s (hsub.subset hs)
  | record kind p now =>
    by_cases hp : p < 0 ∨ p > 100
    · have hsnd : (record σ kind p now).2 = σ := by simp [record, hp]
      show ∀ s ∈ (record σ kind p now).2.sessions, endOk s
      rw [hsnd]
      exact h
    · by_cases hk : kind = "start"
      · subst hk
        have hsnd : (record σ "start" p now).2.sessions =
            σ.sessions ++ [(⟨σ.nextId, p, now, none, none⟩ : ChargingSession)] := by
          simp [record, hp]
        show ∀ s ∈ (record σ "start" p now).2.sessions, endOk s
        rw [hsnd]
        intro s hs
        rcases List.mem_append.1 hs with hl | hr
        · exact h s hl
        · have hfresh : s = ⟨σ.nextId, p, now, none, none⟩ := by simpa using hr
          subst hfresh
          simp [endOk]
      · by_cases he : kind = "end"
        · subst he
          show ∀ s ∈ (record σ "end" p now).2.sessions, endOk s
          cases hf : findOpen σ.sessions with
          | none =>
            have hsnd : (record σ "end" p now).2 = σ := by simp [record, hp, hf]
            rw [hsnd]
            exact h
          | some t =>
            have hsnd : (record σ "end" p now).2.sessions =
                closeAt σ.sessions t.id p now := by
              simp [record, hp, hf]
            rw [hsnd]
            intro s hs
            unfold closeAt at hs
            rcases List.mem_map.1 hs with ⟨u, hu, hfu⟩
            by_cases hid : u.id = t.id
            · rw [← hfu]
              simp [hid, endOk]
            · rw [← hfu]
              simp only [hid, if_false, if_neg hid]
              exact h u hu
        · have hsnd : (record σ kind p now).2 = σ := by simp [record, hp, hk, he]
          show ∀ s ∈ (record σ kind p now).2.sessions, endOk s
          rw [hsnd]
          exact h

theorem endOk_foldl (ops : List ApiOp) (σ : Store)
    (h : ∀ s ∈ σ.sessions, endOk s) :
    ∀ s ∈ (ops.foldl applyOp σ).sessions, endOk s := by
  induction ops generalizing σ with
  | nil => exact h
  | cons op rest ih =>
    rw [List.foldl_cons]
    exact ih _ (endOk_applyOp σ op h)

theorem verify_session_false_of_ne (cfg : String) (tok : Option String)
    (hcfg : cfg ≠ "") (hmis : ∀ v, tok = some v → v ≠ cfg) :
    verify_session cfg tok = false := by
  unfold verify_session
  rw [if_neg hcfg]
  cases tok with
  | none => rfl
  | some v =>
    by_cases h0 : v = ""
    · simp [h0]
    · simp [h0]
      exact hmis v rfl

/-- An already-closed row used in concrete witnesses. -/
def demoClosed : ChargingSession := ⟨2, 60, 4, some 80, some 5⟩

/-- An older open row used in concrete witnesses. -/
def demoOld : ChargingSession := ⟨1, 50, 2, none, none⟩

/-- The most recently started open row used in concrete witnesses. -/
def demoOpen : ChargingSession := ⟨3, 40, 7, none, none⟩

/-- A concrete store with two open rows and one closed row. -/
def demoStore : Store := ⟨[demoOld, demoClosed, demoOpen], 4⟩

/-- A concrete store whose only row is closed. -/
def closedStore : Store := ⟨[demoClosed], 3⟩

/-- Claim C1, counterexample: `record("start", ·)` creates a new open session
unconditionally, so two consecutive starts reach a store with two open sessions
and the at-most-one-open invariant fails as stated. -/
theorem double_start_two_open :
    countOpen (runOps [ApiOp.record "start" 50 0, ApiOp.record "start" 60 1]).sessions = 2 ∧
    ¬ countOpen (runOps [ApiOp.record "start" 50 0, ApiOp.record "start" 60 1]).sessions ≤ 1 := by
  decide

/-- Claim C1, amended: along any sequence of API operations in which every
`start` is issued only while no session is open, every reachable store holds at
most one open session. -/
theorem guarded_at_most_one_open (ops : List ApiOp)
    (h : guardedB initStore ops = true) :
    countOpen (runOps ops).sessions ≤ 1 :=
  countOpen_foldl_le_one ops initStore (by decide) h

/-- Witness for the amended claim C1 at a concrete guarded operation sequence. -/
theorem guarded_at_most_one_open_witness :
    guardedB initStore [ApiOp.record "start" 50 0, ApiOp.record "end" 80 1,
      ApiOp.record "start" 30 2] = true ∧
    countOpen (runOps [ApiOp.record "start" 50 0, ApiOp.record "end" 80 1,
      ApiOp.record "start" 30 2]).sessions ≤ 1 :=
  ⟨by decide, guarded_at_most_one_open _ (by decide)⟩

/-- Claim C2: when no stored session is open, `record("end", p)` with a valid
percentage fails with the 400 response "No active charging session found" and
returns the store completely unchanged. -/
theorem record_end_no_open_fails_400 (σ : Store) (p : Int) (now : Nat)
    (h0 : 0 ≤ p) (h1 : p ≤ 100)
    (h : ∀ s ∈ σ.sessions, isOpen s = false) :
    record σ "end" p now = (.error 400 "No active charging session found", σ) := by
  have hf : findOpen σ.sessions = none := (findOpen_eq_none_iff σ.sessions).2 h
  have hp : ¬(p < 0 ∨ p > 100) := by omega
  simp [record, hp, hf]

/-- Witness for claim C2 at a store whose only session is closed. -/
theorem record_end_no_open_fails_400_witness :
    record closedStore "end" 70 9 =
      (.error 400 "No active charging session found", closedStore) :=
  record_end_no_open_fails_400 closedStore 70 9 (by decide) (by decide) (by decide)

/-- Claim C3: for every percentage outside [0,100] and every request type,
`record` fails with the 400 validation response and leaves the store unchanged. -/
theorem record_invalid_percentage_fails_400 (σ : Store) (kind : String) (p : Int)
    (now : Nat) (h : p < 0 ∨ p > 100) :
    record σ kind p now = (.error 400 "Percentage must be between 0 and 100", σ) := by
  simp [record, h]

/-- Witness for claim C3 at percentage 101 with type "end". -/
theorem record_invalid_percentage_fails_400_witness :
    record demoStore "end" 101 9 =
      (.error 400 "Percentage must be between 0 and 100", demoStore) :=
  record_invalid_percentage_fails_400 demoStore "end" 101 9 (by decide)

/-- Claim C4, code divergence: a session closed with `end_percentage = 0` is a
closed row (its end columns are set), yet `export_csv` renders its
end-percentage CSV cell as the empty string because of the Python truthiness
test, so the value 0 it was closed with does not appear in its row. -/
theorem export_csv_zero_end_percentage_empty_cell :
    (runOps [ApiOp.record "start" 50 0, ApiOp.record "end" 0 10]).sessions =
      [⟨0, 50, 0, some 0, some 10⟩] ∧
    exportRows (runOps [ApiOp.record "start" 50 0, ApiOp.record "end" 0 10]).sessions =
      [["start_percentage", "start_datetime", "end_percentage", "end_datetime"],
       ["50", "0", "", "10"]] := by
  decide

/-- Claim C5: `findOpen` yields none exactly when no session is open; when it
yields a session, that session is open, stored, and has the latest start time
among the open ones; and `record("end", p)` with a valid percentage closes
exactly the session `findOpen` returned, setting its end percentage to `p` and
its end time to the current instant. -/
theorem findOpen_latest_and_record_end_closes (l : List ChargingSession) (σ : Store)
    (p : Int) (now : Nat) :
    (findOpen l = none ↔ ∀ s ∈ l, isOpen s = false) ∧
    (∀ s, findOpen l = some s →
      s ∈ l ∧ isOpen s = true ∧ ∀ t ∈ l, isOpen t = true → t.start_time ≤ s.start_time) ∧
    (∀ s, 0 ≤ p → p ≤ 100 → findOpen σ.sessions = some s →
      record σ "end" p now =
        (.ok (.ended ("Recorded " ++ toString p ++ "% as end charge")
          { s with end_percentage := some p, end_time := some now }),
         ⟨closeAt σ.sessions s.id p now, σ.nextId⟩)) := by
  refine ⟨findOpen_eq_none_iff l, fun s hsome => findOpen_eq_some l s hsome, ?_⟩
  intro s h0 h1 hf
  have hp : ¬(p < 0 ∨ p > 100) := by omega
  simp [record, hp, hf]

/-- Witness for claim C5 at a concrete store: the open session with the latest
start time is selected and closed by an end event. -/
theorem findOpen_latest_and_record_end_closes_witness :
    demoOpen ∈ demoStore.sessions ∧ isOpen demoOpen = true ∧
    (∀ t ∈ demoStore.sessions, isOpen t = true → t.start_time ≤ demoOpen.start_time) ∧
    record demoStore "end" 70 9 =
      (Outcome.ok (RecordPayload.ended "Recorded 70% as end charge"
        ⟨3, 40, 7, some 70, some 9⟩),
       ⟨[demoOld, demoClosed, ⟨3, 40, 7, some 70, some 9⟩], 4⟩) := by
  have h := findOpen_latest_and_record_end_closes demoStore.sessions demoStore 70 9
  refine ⟨(h.2.1 demoOpen (by decide)).1, (h.2.1 demoOpen (by decide)).2.1,
    (h.2.1 demoOpen (by decide)).2.2, ?_⟩
  have he := h.2.2 demoOpen (by decide) (by decide) (by decide)
  rw [he]
  decide

/-- Claim C6: `verify_session` accepts a request exactly when no passphrase is
configured or the presented cookie equals the configured passphrase; in
particular with an empty configured passphrase it accepts every request,
including one with no cookie at all. -/
theorem verify_session_iff (cfg : String) (tok : Option String) :
    verify_session cfg tok = true ↔ (cfg = "" ∨ tok = some cfg) := by
  unfold verify_session
  by_cases hc : cfg = ""
  · simp [hc]
  · cases tok with
    | none => simp [hc]
    | some c =>
      by_cases h0 : c = ""
      · subst h0
        simp [hc]
        exact fun heq => hc heq.symm
      · simp [hc, h0]

/-- Claim C7: with a passphrase configured and a non-matching cookie, every
data-reading or data-mutating endpoint returns the 401 Unauthorized response
with the store completely unchanged, while the health-check endpoint succeeds
with no token. -/
theorem endpoints_unauthorized_401_no_mutation (cfg : String) (cookie : Option String)
    (σ : Store) (kind : String) (p : Int) (now : Nat) (sid : Nat)
    (hcfg : cfg ≠ "") (hmis : ∀ v, cookie = some v → v ≠ cfg) :
    get_status cfg cookie σ = (.error 401 "Unauthorized", σ) ∧
    get_sessions cfg cookie σ = (.error 401 "Unauthorized", σ) ∧
    create_session cfg cookie σ kind p now = (.error 401 "Unauthorized", σ) ∧
    export_csv cfg cookie σ = (.error 401 "Unauthorized", σ) ∧
    delete_session cfg cookie σ sid = (.error 401 "Unauthorized", σ) ∧
    delete_all_sessions cfg cookie σ = (.error 401 "Unauthorized", σ) ∧
    health_check = (200, "ok") := by
  have hv : verify_session cfg cookie = false := verify_session_false_of_ne cfg cookie hcfg hmis
  exact ⟨by simp [get_status, hv], by simp [get_sessions, hv],
    by simp [create_session, hv], by simp [export_csv, hv],
    by simp [delete_session, hv], by simp [delete_all_sessions, hv], rfl⟩

/-- Witness for claim C7 with passphrase "secret" and cookie "wrong". -/
theorem endpoints_unauthorized_401_no_mutation_witness :
    get_status "secret" (some "wrong") demoStore = (.error 401 "Unauthorized", demoStore) ∧
    get_sessions "secret" (some "wrong") demoStore = (.error 401 "Unauthorized", demoStore) ∧
    create_session "secret" (some "wrong") demoStore "start" 50 9 =
      (.error 401 "Unauthorized", demoStore) ∧
    export_csv "secret" (some "wrong") demoStore = (.error 401 "Unauthorized", demoStore) ∧
    delete_session "secret" (some "wrong") demoStore 1 = (.error 401 "Unauthorized", demoStore) ∧
    delete_all_sessions "secret" (some "wrong") demoStore = (.error 401 "Unauthorized", demoStore) ∧
    health_check = (200, "ok") :=
  endpoints_unauthorized_401_no_mutation "secret" (some "wrong") demoStore "start" 50 9 1
    (by decide) (fun v hv => by cases hv; decide)

/-- Claim C8: with a passphrase configured, `unlock` with a wrong phrase returns
the failure body and establishes no cookie, after which `verify_session` rejects
every caller whose cookie is absent or different from the passphrase; with the
matching phrase it sets the session cookie whose value is the passphrase itself
and whose lifetime is 86400 seconds (24 hours). -/
theorem unlock_wrong_phrase_no_token (cfg phrase : String) (hcfg : cfg ≠ "") :
    (phrase ≠ cfg →
      (unlock cfg phrase).1 = ⟨false, "Incorrect passphrase"⟩ ∧
      (unlock cfg phrase).2 = none ∧
      ∀ tok : Option String, (∀ v, tok = some v → v ≠ cfg) →
        verify_session cfg tok = false) ∧
    (phrase = cfg →
      (unlock cfg phrase).1 = ⟨true, "Unlocked"⟩ ∧
      (unlock cfg phrase).2 =
        some ⟨"chargerecorder_session", cfg, true, 86400, "lax"⟩) := by
  constructor
  · intro hne
    refine ⟨by simp [unlock, hcfg, hne], by simp [unlock, hcfg, hne], ?_⟩
    intro tok htok
    exact verify_session_false_of_ne cfg tok hcfg htok
  · intro heq
    subst heq
    exact ⟨by simp [unlock, hcfg], by simp [unlock, hcfg]⟩

/-- Witness for claim C8 with passphrase "secret": the wrong phrase "guess"
fails without a cookie and a cookieless caller stays rejected, while the right
phrase sets the 24-hour cookie holding the passphrase. -/
theorem unlock_wrong_phrase_no_token_witness :
    (unlock "secret" "guess").1 = ⟨false, "Incorrect passphrase"⟩ ∧
    (unlock "secret" "guess").2 = none ∧
    verify_session "secret" none = false ∧
    (unlock "secret" "secret").2 =
      some ⟨"chargerecorder_session", "secret", true, 86400, "lax"⟩ := by
  have h := unlock_wrong_phrase_no_token "secret" "guess" (by decide)
  have hm := unlock_wrong_phrase_no_token "secret" "secret" (by decide)
  have hw := h.1 (by decide)
  exact ⟨hw.1, hw.2.1, hw.2.2 none (fun v hv => nomatch hv), (hm.2 rfl).2⟩

/-- Claim C9: an authorized `GET /api/sessions` returns every stored session,
ordered by start time descending, and each rendered element carries the id,
start fields, and the raw nullable end fields (null exactly when absent). -/
theorem get_sessions_desc_all_fields (cfg : String) (cookie : Option String) (σ : Store)
    (h : verify_session cfg cookie = true) :
    get_sessions cfg cookie σ =
      (.ok ((sortDescByStart σ.sessions).map renderSession), σ) ∧
    List.Perm ((sortDescByStart σ.sessions).map renderSession)
      (σ.sessions.map renderSession) ∧
    List.Pairwise (fun a b => b.start_time ≤ a.start_time)
      ((sortDescByStart σ.sessions).map renderSession) ∧
    (∀ s : ChargingSession, (renderSession s).id = s.id ∧
      (renderSession s).start_percentage = s.start_percentage ∧
      (renderSession s).start_time = s.start_time ∧
      (renderSession s).end_percentage = s.end_percentage ∧
      (renderSession s).end_time = s.end_time) := by
  refine ⟨by simp [get_sessions, h], ?_, ?_, fun s => ⟨rfl, rfl, rfl, rfl, rfl⟩⟩
  · exact (List.perm_insertionSort startDescLe σ.sessions).map renderSession
  · exact List.Pairwise.map renderSession (fun a b hab => hab)
      (List.sorted_insertionSort startDescLe σ.sessions)

/-- Witness for claim C9 at a concrete store with the gate disabled. -/
theorem get_sessions_desc_all_fields_witness :
    get_sessions "" none demoStore =
      (.ok ((sortDescByStart demoStore.sessions).map renderSession), demoStore) ∧
    List.Perm ((sortDescByStart demoStore.sessions).map renderSession)
      (demoStore.sessions.map renderSession) ∧
    List.Pairwise (fun a b => b.start_time ≤ a.start_time)
      ((sortDescByStart demoStore.sessions).map renderSession) ∧
    (renderSession demoOpen).end_percentage = demoOpen.end_percentage := by
  have h := get_sessions_desc_all_fields "" none demoStore (by decide)
  exact ⟨h.1, h.2.1, h.2.2.1, (h.2.2.2 demoOpen).2.2.2.1⟩

/-- Claim C10: in every store reachable through the API, a session's
`end_percentage` is absent exactly when its `end_time` is absent; a `start`
creates its session with both end fields absent, and an `end` sets both fields
in the same operation. -/
theorem end_fields_absent_together (ops : List ApiOp) (σ : Store) (p : Int) (now : Nat) :
    (∀ s ∈ (runOps ops).sessions, s.end_percentage = none ↔ s.end_time = none) ∧
    (∀ msg sess, (record σ "start" p now).1 = .ok (.started msg sess) →
      sess.end_percentage = none ∧ sess.end_time = none) ∧
    (∀ msg sess, (record σ "end" p now).1 = .ok (.ended msg sess) →
      sess.end_percentage = some p ∧ sess.end_time = some now) := by
  refine ⟨endOk_foldl ops initStore (by simp [initStore]), ?_, ?_⟩
  · intro msg sess hok
    by_cases hp : p < 0 ∨ p > 100
    · simp [record, hp] at hok
    · simp [record, hp] at hok
      rw [← hok.2]
      exact ⟨rfl, rfl⟩
  · intro msg sess hok
    by_cases hp : p < 0 ∨ p > 100
    · simp [record, hp] at hok
    · cases hf : findOpen σ.sessions with
      | none => simp [record, hp, hf] at hok
      | some t =>
        simp [record, hp, hf] at hok
        rw [← hok.2]
        exact ⟨rfl, rfl⟩

/-- Witness for claim C10 at a concrete run and concrete record calls. -/
theorem end_fields_absent_together_witness :
    ((⟨0, 50, 0, some 80, some 1⟩ : ChargingSession).end_percentage = none ↔
      (⟨0, 50, 0, some 80, some 1⟩ : ChargingSession).end_time = none) ∧
    ((⟨4, 50, 9, none, none⟩ : ChargingSession).end_percentage = none ∧
      (⟨4, 50, 9, none, none⟩ : ChargingSession).end_time = none) ∧
    ((⟨3, 40, 7, some 70, some 9⟩ : ChargingSession).end_percentage = some 70 ∧
      (⟨3, 40, 7, some 70, some 9⟩ : ChargingSession).end_time = some 9) := by
  have h := end_fields_absent_together
    [ApiOp.record "start" 50 0, ApiOp.record "end" 80 1] demoStore 50 9
  have h2 := end_fields_absent_together
    [ApiOp.record "start" 50 0, ApiOp.record "end" 80 1] demoStore 70 9
  refine ⟨h.1 ⟨0, 50, 0, some 80, some 1⟩ (by decide), ?_, ?_⟩
  · exact h.2.1 "Recorded 50% as start charge" ⟨4, 50, 9, none, none⟩ (by decide)
  · exact h2.2.2 "Recorded 70% as end charge" ⟨3, 40, 7, some 70, some 9⟩ (by decide)

end ChargeRecorder
